import Mathlib

/-!
Verification of the provider-abstraction core of sgpt: the configuration
validation logic, the per-vendor request-payload construction, the
response parsing, and the SSE stream-decoding loops, shallowly embedded
from the Go sources under pkg/config, pkg/provider and pkg/transport.

Modelling conventions:
* Go strings are Lean `String`s; the Go standard-library string helpers
  used by the code (TrimSpace, HasPrefix, TrimPrefix, SplitN with n = 2)
  are re-implemented below over `List Char` so that all operations reduce
  in the kernel.  TrimSpace is modelled for the ASCII whitespace actually
  occurring in the protocol (space, tab, CR, LF).
* Go float64 values (temperature) are modelled as `Rat`; the comparisons
  in the code are order comparisons that coincide on the values involved.
* JSON marshalling is modelled by typed payload values mirroring the maps
  the Go code builds; JSON unmarshalling of response bodies is modelled by
  the decoded struct values (a field absent in the bytes decodes to "").
  The SSE loops take the decoder for one data payload as a function
  parameter `dec`, standing for json.Unmarshal into the chunk struct.
* The file system is a function from path to optional byte list, standing
  for os.ReadFile; HTTP transport is out of scope except where a claim is
  about the transport wrapper itself.
* A `*slog.Logger` field is modelled as `Option Unit`: `none` is a nil
  logger.  A Go method call on a nil logger panics; panics are modelled
  as the `.error .nilLogger` outcome of `Except RuntimePanic`.
-/

namespace Sgpt

/-- ASCII whitespace recognised by the model of strings.TrimSpace. -/
def isWhite (c : Char) : Bool :=
  c = ' ' || c = '\t' || c = '\n' || c = '\r'

/-- Trim whitespace from both ends of a character list. -/
def trimChars (l : List Char) : List Char :=
  ((l.dropWhile isWhite).reverse.dropWhile isWhite).reverse

/-- Model of strings.TrimSpace (ASCII whitespace). -/
def strTrim (s : String) : String :=
  String.mk (trimChars s.data)

/-- Model of strings.HasPrefix. -/
def hasPrefixStr (s p : String) : Bool :=
  p.data.isPrefixOf s.data

/-- Drop the first `n` characters of a string. -/
def dropStr (s : String) (n : Nat) : String :=
  String.mk (s.data.drop n)

/-- Model of strings.TrimPrefix: remove `p` from the front of `s` when it
is a prefix, otherwise return `s` unchanged. -/
def trimPrefixStr (s p : String) : String :=
  if hasPrefixStr s p then dropStr s p.data.length else s

/-- Split at the first occurrence of `sep`: `some (before, after)`, or
`none` when `sep` does not occur. -/
def findSplit (sep : List Char) : List Char → Option (List Char × List Char)
  | [] => if sep.isEmpty then some ([], []) else none
  | c :: cs =>
    if sep.isPrefixOf (c :: cs) then some ([], (c :: cs).drop sep.length)
    else (findSplit sep cs).map fun p => (c :: p.1, p.2)

/-- Model of strings.SplitN(s, sep, 2): the Go call returns a two-element
slice exactly when `sep` occurs in `s`, which is the `some` case here;
the one-element slice (separator absent) is `none`. -/
def splitN2 (s sep : String) : Option (String × String) :=
  (findSplit sep.data s.data).map fun p => (String.mk p.1, String.mk p.2)

/-- The standard base64 alphabet. -/
def base64Alphabet : List Char :=
  "ABCDEFGHIJKLMNOPQRSTUVWXYZabcdefghijklmnopqrstuvwxyz0123456789+/".data

/-- Character of the base64 alphabet at index `n`. -/
def b64char (n : Nat) : Char :=
  base64Alphabet.getD n 'A'

/-- Encode a byte list three bytes at a time, with `=` padding, as
encoding/base64 StdEncoding does. -/
def base64Chunks : List Nat → List Char
  | [] => []
  | [a] => [b64char (a / 4), b64char (a % 4 * 16), '=', '=']
  | [a, b] => [b64char (a / 4), b64char (a % 4 * 16 + b / 16), b64char (b % 16 * 4), '=']
  | a :: b :: c :: rest =>
    b64char (a / 4) :: b64char (a % 4 * 16 + b / 16) ::
    b64char (b % 16 * 4 + c / 64) :: b64char (c % 64) :: base64Chunks rest

/-- Model of base64.StdEncoding.EncodeToString; bytes are naturals kept
below 256 by reduction modulo 2^8. -/
def base64Encode (bytes : List Nat) : String :=
  String.mk (base64Chunks (bytes.map (· % 256)))

/-! ## Configuration (pkg/config/config.go) -/

/-- ModelCapabilities describes what a model can do. -/
structure ModelCapabilities where
  multimodal : Bool
  streaming : Bool
deriving DecidableEq

/-- Config holds all configuration for the application.  The slog.Logger
field is abstracted to `Option Unit` (none = nil logger). -/
structure Config where
  apiKey : String
  provider : String
  model : String
  modelCaps : ModelCapabilities
  instruction : String
  temperature : Rat
  separator : String
  imagePath : String
  audioPath : String
  debug : Bool
  logger : Option Unit
  remainingArgs : List String
deriving DecidableEq

/-- The predefined model-capability table of config.go, as an association
list in source order. -/
def modelCapabilitiesList : List (String × ModelCapabilities) :=
  [("gpt-4o", ⟨true, true⟩),
   ("gpt-4", ⟨false, true⟩),
   ("gpt-4-0314", ⟨false, true⟩),
   ("gpt-4-32k", ⟨false, true⟩),
   ("gpt-4-32k-0314", ⟨false, true⟩),
   ("gpt-3.5-turbo", ⟨false, true⟩),
   ("text-davinci-003", ⟨false, false⟩),
   ("text-davinci-002", ⟨false, false⟩),
   ("text-curie-001", ⟨false, false⟩),
   ("text-babbage-001", ⟨false, false⟩),
   ("text-ada-001", ⟨false, false⟩),
   ("claude-v1", ⟨false, true⟩),
   ("claude-v1.2", ⟨false, true⟩),
   ("gemini-medium", ⟨true, true⟩),
   ("gemini-large", ⟨true, true⟩)]

/-- Map lookup in the capability table. -/
def modelCapabilities (m : String) : Option ModelCapabilities :=
  modelCapabilitiesList.lookup m

/-- The errors Validate can return, one constructor per failing check. -/
inductive VErr where
  | apiKeyRequired
  | unsupportedProvider (p : String)
  | unsupportedModel (m : String)
  | multimodalUnsupported (m : String)
  | temperatureOutOfRange (t : Rat)
deriving DecidableEq

/-- The provider-specific default model assigned by Validate when the
model is unset (the switch inside the `c.Model == ""` branch). -/
def defaultModel (p : String) : String :=
  if p = "openai" then "gpt-3.5-turbo"
  else if p = "anthropic" then "claude-v1"
  else if p = "google" then "gemini-medium"
  else ""

/-- Field update for Model (Go: `c.Model = ...`). -/
def Config.setModel (c : Config) (m : String) : Config :=
  ⟨c.apiKey, c.provider, m, c.modelCaps, c.instruction, c.temperature,
   c.separator, c.imagePath, c.audioPath, c.debug, c.logger, c.remainingArgs⟩

/-- Field update for ModelCaps (Go: `c.ModelCaps = caps`). -/
def Config.setModelCaps (c : Config) (k : ModelCapabilities) : Config :=
  ⟨c.apiKey, c.provider, c.model, k, c.instruction, c.temperature,
   c.separator, c.imagePath, c.audioPath, c.debug, c.logger, c.remainingArgs⟩

/-- Validate (config.go, Validate method): the Go method mutates the
receiver and returns an error; modelled as post-state plus optional
error.  The sequence mirrors the source: API key, provider switch,
default-model assignment, capability lookup, multimodal constraint,
temperature range. -/
def Config.Validate (c : Config) : Config × Option VErr :=
  if c.apiKey = "" then (c, some .apiKeyRequired)
  else if c.provider = "openai" ∨ c.provider = "anthropic" ∨ c.provider = "google" then
    let c1 := if c.model = "" then c.setModel (defaultModel c.provider) else c
    match modelCapabilities c1.model with
    | none => (c1, some (.unsupportedModel c1.model))
    | some caps =>
      let c2 := c1.setModelCaps caps
      if (c2.imagePath ≠ "" ∨ c2.audioPath ≠ "") ∧ caps.multimodal = false then
        (c2, some (.multimodalUnsupported c2.model))
      else if c2.temperature < 0 ∨ c2.temperature > 1 then
        (c2, some (.temperatureOutOfRange c2.temperature))
      else (c2, none)
  else (c, some (.unsupportedProvider c.provider))

/-- The model Validate ends up checking: the configured one, or the
provider default when the configured one is empty. -/
def effectiveModel (c : Config) : String :=
  if c.model = "" then defaultModel c.provider else c.model

/-- Modelled from the spec's words in section 4.4: the verdict of the six
checks in the spec's fixed order, each check phrased independently of
Validate's control flow, returning the error of the first failing check. -/
def specValidationError (c : Config) : Option VErr :=
  if c.apiKey = "" then some .apiKeyRequired
  else if c.provider ∉ (["openai", "anthropic", "google"] : List String) then
    some (.unsupportedProvider c.provider)
  else if (modelCapabilities (effectiveModel c)).isNone then
    some (.unsupportedModel (effectiveModel c))
  else if (c.imagePath ≠ "" ∨ c.audioPath ≠ "") ∧
      ((modelCapabilities (effectiveModel c)).getD ⟨false, false⟩).multimodal = false then
    some (.multimodalUnsupported (effectiveModel c))
  else if c.temperature < 0 ∨ c.temperature > 1 then
    some (.temperatureOutOfRange c.temperature)
  else none

/-! ## Provider abstraction (pkg/provider/provider.go) -/

/-- The provider error taxonomy relevant to the modelled code paths. -/
inductive PError where
  | unsupportedModel (m : String)
  | noResponseGenerated
  | fileReadError (path : String)
deriving DecidableEq

/-- A file system: path to optional byte contents (os.ReadFile). -/
def FileSys : Type := String → Option (List Nat)

/-- Request represents a completion request to an LLM provider. -/
structure Request where
  instruction : String
  input : String
  temperature : Rat
  model : String
  imagePath : String
  audioPath : String
  stream : Bool
deriving DecidableEq

/-- LoadImageAsBase64 (provider.go): an http(s) URL is returned directly,
otherwise the file is read and wrapped in a png data URI. -/
def LoadImageAsBase64 (fs : FileSys) (path : String) : Except PError String :=
  if hasPrefixStr path "http://" || hasPrefixStr path "https://" then .ok path
  else
    match fs path with
    | none => .error (.fileReadError path)
    | some bytes => .ok ("data:image/png;base64," ++ base64Encode bytes)

/-- LoadAudioAsBase64 (provider.go): always reads the file, no URL case. -/
def LoadAudioAsBase64 (fs : FileSys) (path : String) : Except PError String :=
  match fs path with
  | none => .error (.fileReadError path)
  | some bytes => .ok ("data:audio/wav;base64," ++ base64Encode bytes)

/-- A panic surfaced by the model: dereferencing a nil logger. -/
inductive RuntimePanic where
  | nilLogger
deriving DecidableEq

/-! ## OpenAI adapter (pkg/provider/openai/openai.go) -/

/-- One element of a gpt-4o user-content array. -/
inductive OAContentPart where
  | text (t : String)
  | imageUrl (url : String)
  | audioData (data : String)
deriving DecidableEq

/-- A chat message: either a plain role/content pair or a role with a
content-part array (the gpt-4o user message). -/
inductive OAMessage where
  | plain (role content : String)
  | parts (role : String) (content : List OAContentPart)
deriving DecidableEq

/-- The body shape: chat `messages` or legacy `prompt`. -/
inductive OABody where
  | chat (messages : List OAMessage)
  | legacy (prompt : String)
deriving DecidableEq

/-- The JSON request payload the OpenAI adapter marshals. -/
structure OAPayload where
  model : String
  body : OABody
  temperature : Rat
  stream : Bool
deriving DecidableEq

/-- The grouped chat-model cases of the prepareRequestPayload switch. -/
def openaiChatModels : List String :=
  ["gpt-4", "gpt-4-0314", "gpt-4-32k", "gpt-4-32k-0314", "gpt-3.5-turbo"]

/-- The grouped legacy-completions cases of the same switch. -/
def openaiLegacyModels : List String :=
  ["text-davinci-003", "text-davinci-002", "text-curie-001", "text-babbage-001", "text-ada-001"]

/-- prepareRequestPayload (openai.go): switch on the request model; the
gpt-4o case assembles multimodal content parts (propagating load errors,
image first as in the source), the grouped chat cases emit fixed
system+user messages, the grouped legacy cases a concatenated prompt, and
any other identifier is ErrUnsupportedModel. -/
def OpenAI.prepareRequestPayload (fs : FileSys) (req : Request) (stream : Bool) :
    Except PError OAPayload :=
  if req.model = "gpt-4o" then
    match (if req.imagePath ≠ "" then
            (LoadImageAsBase64 fs req.imagePath).map fun u => [OAContentPart.imageUrl u]
           else .ok []) with
    | .error e => .error e
    | .ok imageParts =>
      match (if req.audioPath ≠ "" then
              (LoadAudioAsBase64 fs req.audioPath).map fun d => [OAContentPart.audioData d]
             else .ok []) with
      | .error e => .error e
      | .ok audioParts =>
        .ok ⟨req.model,
             .chat ((if req.instruction ≠ "" then [OAMessage.plain "system" req.instruction] else []) ++
               [OAMessage.parts "user"
                 ((if req.input ≠ "" then [OAContentPart.text req.input] else []) ++
                  imageParts ++ audioParts)]),
             req.temperature, stream⟩
  else if req.model ∈ openaiChatModels then
    .ok ⟨req.model,
         .chat [OAMessage.plain "system" req.instruction, OAMessage.plain "user" req.input],
         req.temperature, stream⟩
  else if req.model ∈ openaiLegacyModels then
    .ok ⟨req.model, .legacy (req.instruction ++ " " ++ req.input), req.temperature, stream⟩
  else .error (.unsupportedModel req.model)

/-- Decoded `choices[i].message` of a chat-completion body. -/
structure OAMessageContent where
  role : String
  content : String
deriving DecidableEq

/-- Decoded `choices[i]`: the chat branch reads `message.content`, the
legacy branch reads `text`; a field absent in the bytes decodes to "". -/
structure OAChoice where
  message : OAMessageContent
  text : String
deriving DecidableEq

/-- Decoded HTTP-200 response body of the OpenAI endpoints. -/
structure OAResponseBody where
  choices : List OAChoice
deriving DecidableEq

/-- parseResponse (openai.go): chat models (model prefixed `gpt-`) take
the trimmed first choice's message content, legacy models the trimmed
first choice's text; zero choices is ErrNoResponseGenerated. -/
def OpenAI.parseResponse (body : OAResponseBody) (model : String) : Except PError String :=
  if hasPrefixStr model "gpt-" then
    match body.choices with
    | [] => .error .noResponseGenerated
    | ch :: _ => .ok (strTrim ch.message.content)
  else
    match body.choices with
    | [] => .error .noResponseGenerated
    | ch :: _ => .ok (strTrim ch.text)

/-- Decoded `choices[0].delta` of one SSE chunk. -/
structure OADelta where
  content : String
deriving DecidableEq

/-- Decoded choice of one SSE chunk. -/
structure OAStreamChoice where
  delta : OADelta
  finishReason : String
deriving DecidableEq

/-- Decoded SSE data payload of the OpenAI stream. -/
structure OAChunk where
  choices : List OAStreamChoice
deriving DecidableEq

/-- One iteration of the SSE-decoding loop of StreamComplete (openai.go
lines 159-217) on one line; `next` is the processing of the remaining
lines, so Go `continue` is `next`, Go `break` discards it.  `dec` stands
for json.Unmarshal of one data payload into the chunk struct.  A nil
logger (`none`) reproduces the unguarded `p.logger.Warn` on a malformed
payload as a panic. -/
def OpenAI.streamStep (logger : Option Unit) (dec : String → Option OAChunk)
    (line : String) (next : Except RuntimePanic String) : Except RuntimePanic String :=
  let l := strTrim line
  if l = "" ∨ hasPrefixStr l ":" = true then next
  else
    match splitN2 l ": " with
    | none => next
    | some (event, data) =>
      if event ≠ "data" then next
      else if data = "[DONE]" then .ok ""
      else
        match dec data with
        | none =>
          match logger with
          | none => .error .nilLogger
          | some _ => next
        | some chunk =>
          match chunk.choices with
          | [] => next
          | ch :: _ =>
            let out := if ch.delta.content ≠ "" then ch.delta.content else ""
            if ch.finishReason ≠ "" then .ok out
            else next.map fun s => out ++ s

/-- The SSE-decoding loop of StreamComplete (openai.go lines 157-217)
over the complete list of lines read before EOF, returning the text
printed inside the loop. -/
def OpenAI.streamLoop (logger : Option Unit) (dec : String → Option OAChunk) :
    List String → Except RuntimePanic String
  | [] => .ok ""
  | line :: rest => OpenAI.streamStep logger dec line (OpenAI.streamLoop logger dec rest)

/-- The loop followed by the closing `fmt.Println()`: everything
StreamComplete writes after a successful handshake. -/
def OpenAI.streamRun (logger : Option Unit) (dec : String → Option OAChunk)
    (lines : List String) : Except RuntimePanic String :=
  (OpenAI.streamLoop logger dec lines).map fun s => s ++ "\n"

/-! ## Anthropic adapter (pkg/provider/anthropic/anthropic.go) -/

/-- The JSON request payload the Anthropic adapter marshals: model,
max_tokens (fixed 1000), temperature, stream, a single user message, and
the system field. -/
structure APayload where
  model : String
  maxTokens : Nat
  temperature : Rat
  stream : Bool
  messages : List (String × String)
  system : String
deriving DecidableEq

/-- prepareRequestPayload (anthropic.go): built unconditionally from the
request, with no check of the model identifier. -/
def Anthropic.prepareRequestPayload (req : Request) (stream : Bool) : APayload :=
  ⟨req.model, 1000, req.temperature, stream, [("user", req.input)], req.instruction⟩

/-- Decoded `content[i]` block of an Anthropic response body. -/
structure ABlock where
  btype : String
  text : String
deriving DecidableEq

/-- Decoded HTTP-200 response body of the Anthropic messages endpoint. -/
structure AResponseBody where
  content : List ABlock
deriving DecidableEq

/-- The concatenation loop of parseResponse (anthropic.go): append the
text of every block whose type is "text". -/
def anthropicTextConcat : List ABlock → String
  | [] => ""
  | b :: bs => (if b.btype = "text" then b.text else "") ++ anthropicTextConcat bs

/-- parseResponse (anthropic.go): concatenate all text blocks; an empty
concatenation is ErrNoResponseGenerated. -/
def Anthropic.parseResponse (body : AResponseBody) : Except PError String :=
  let textContent := anthropicTextConcat body.content
  if textContent = "" then .error .noResponseGenerated
  else .ok textContent

/-- Decoded `delta` of an Anthropic content_block_delta event. -/
structure ADelta where
  text : String
deriving DecidableEq

/-- Decoded SSE data payload of the Anthropic stream. -/
structure AContentBlock where
  btype : String
  delta : ADelta
deriving DecidableEq

/-- One iteration of the SSE-decoding loop of StreamComplete
(anthropic.go lines 150-187) on one scanned line.  In the source, a line
carrying an `event:` field reaches the end of the loop body either
through the inner `continue` (other event types) or by failing the
subsequent `data:` prefix test (content_block_delta), so both cases are
`next` here; only `data:` lines are decoded, and text is emitted when
the decoded type is content_block_delta and the delta text is non-empty.
A nil logger reproduces the unguarded `p.logger.Warn` on a malformed
payload as a panic. -/
def Anthropic.streamStep (logger : Option Unit) (dec : String → Option AContentBlock)
    (line : String) (next : Except RuntimePanic String) : Except RuntimePanic String :=
  if hasPrefixStr line "event: " = false ∧ hasPrefixStr line "data: " = false then next
  else if hasPrefixStr line "event: " = true then next
  else if hasPrefixStr line "data: " = true then
    let data := trimPrefixStr line "data: "
    if data = "[DONE]" then .ok ""
    else
      match dec data with
      | none =>
        match logger with
        | none => .error .nilLogger
        | some _ => next
      | some cb =>
        let out := if cb.btype = "content_block_delta" ∧ cb.delta.text ≠ ""
                   then cb.delta.text else ""
        next.map fun s => out ++ s
  else next

/-- The SSE-decoding loop of StreamComplete (anthropic.go lines 149-187)
over the complete list of scanned lines. -/
def Anthropic.streamLoop (logger : Option Unit) (dec : String → Option AContentBlock) :
    List String → Except RuntimePanic String
  | [] => .ok ""
  | line :: rest => Anthropic.streamStep logger dec line (Anthropic.streamLoop logger dec rest)

/-! ## Gemini adapter (pkg/provider/gemini/gemini.go) -/

/-- One part of a Gemini `contents` entry: text, an inline_data object
carrying a url, or an inline_data object carrying base64 data. -/
inductive GemPart where
  | text (t : String)
  | inlineDataUrl (mimeType url : String)
  | inlineData (mimeType data : String)
deriving DecidableEq

/-- One entry of the Gemini `contents` array. -/
structure GemContent where
  role : String
  parts : List GemPart
deriving DecidableEq

/-- The JSON request payload the Gemini adapter marshals; the
systemInstruction field is present only when an instruction is set. -/
structure GemPayload where
  contents : List GemContent
  systemInstruction : Option (List GemPart)
  temperature : Rat
deriving DecidableEq

/-- prepareRequestPayload (gemini.go): a user text part, plus an image
part when an image path is set.  The loaded image string is passed as a
url when it begins with "http", otherwise the png data-URI prefix is
trimmed off and the bare base64 is inlined; the mime type is always
"image/jpeg".  The stream flag does not enter the payload (streaming is
selected by the `alt=sse` URL parameter). -/
def Gemini.prepareRequestPayload (fs : FileSys) (req : Request) (stream : Bool) :
    Except PError GemPayload :=
  let baseParts : List GemPart := [GemPart.text req.input]
  match (if req.imagePath ≠ "" then (LoadImageAsBase64 fs req.imagePath).map some
         else .ok none) with
  | .error e => .error e
  | .ok imgOpt =>
    let parts :=
      match imgOpt with
      | none => baseParts
      | some imageData =>
        if hasPrefixStr imageData "http" then
          baseParts ++ [GemPart.inlineDataUrl "image/jpeg" imageData]
        else
          baseParts ++ [GemPart.inlineData "image/jpeg"
            (trimPrefixStr imageData "data:image/png;base64,")]
    .ok ⟨[⟨"user", parts⟩],
         if req.instruction ≠ "" then some [GemPart.text req.instruction] else none,
         req.temperature⟩

/-- The endpoint format constant of gemini.go line 24 applied to the
request's model name, as Complete does at gemini.go line 57 with
fmt.Sprintf: the identifier is spliced into the URL path unchanged. -/
def Gemini.APIEndpointOf (model : String) : String :=
  "https://generativelanguage.googleapis.com/v1beta/models/" ++ model ++ ":generateContent"

/-- The full non-streaming request URL with the API key appended as a
query parameter (gemini.go line 60). -/
def Gemini.completeEndpoint (apiKey model : String) : String :=
  Gemini.APIEndpointOf model ++ "?key=" ++ apiKey

/-- Decoded `parts[i]` of a Gemini candidate content. -/
structure GPart where
  text : String
deriving DecidableEq

/-- Decoded `content` of a Gemini candidate. -/
structure GContent where
  parts : List GPart
deriving DecidableEq

/-- Decoded `candidates[i]` of a Gemini response body. -/
structure GCandidate where
  content : GContent
deriving DecidableEq

/-- Decoded HTTP-200 response body of the Gemini generateContent call. -/
structure GResponseBody where
  candidates : List GCandidate
deriving DecidableEq

/-- parseResponse (gemini.go): the text of the first part of the first
candidate, with no trimming; zero candidates or zero parts is
ErrNoResponseGenerated. -/
def Gemini.parseResponse (body : GResponseBody) : Except PError String :=
  match body.candidates with
  | [] => .error .noResponseGenerated
  | c :: _ =>
    match c.content.parts with
    | [] => .error .noResponseGenerated
    | p :: _ => .ok p.text

/-- One iteration of the SSE-decoding loop of StreamComplete (gemini.go
lines 159-194) on one scanned line: only `data:` lines are decoded; the
first part text of the first candidate is emitted when non-empty
(emitting the empty string writes nothing, so the non-empty guard is the
identity here).  A nil logger reproduces the unguarded `p.logger.Warn`
on a malformed payload as a panic. -/
def Gemini.streamStep (logger : Option Unit) (dec : String → Option GResponseBody)
    (line : String) (next : Except RuntimePanic String) : Except RuntimePanic String :=
  if hasPrefixStr line "data: " = false then next
  else
    let data := trimPrefixStr line "data: "
    if data = "[DONE]" then .ok ""
    else
      match dec data with
      | none =>
        match logger with
        | none => .error .nilLogger
        | some _ => next
      | some sr =>
        let out :=
          match sr.candidates with
          | [] => ""
          | c :: _ =>
            match c.content.parts with
            | [] => ""
            | p :: _ => p.text
        next.map fun s => out ++ s

/-- The SSE-decoding loop of StreamComplete (gemini.go lines 158-194)
over the complete list of scanned lines. -/
def Gemini.streamLoop (logger : Option Unit) (dec : String → Option GResponseBody) :
    List String → Except RuntimePanic String
  | [] => .ok ""
  | line :: rest => Gemini.streamStep logger dec line (Gemini.streamLoop logger dec rest)

/-! ## Transport client (pkg/transport/client.go) -/

/-- The outcome of the wrapped httpClient.Do call, abstracted. -/
inductive DoResult where
  | success
  | failure
deriving DecidableEq

/-- Do (client.go): logs a debug line through `c.logger` before issuing
the request and logs the outcome after; the dereference is unguarded, so
a nil logger panics before any request is sent, and with a logger the
wrapper returns the transport outcome unchanged. -/
def Transport.Do (logger : Option Unit) (send : DoResult) : Except RuntimePanic DoResult :=
  match logger with
  | none => .error .nilLogger
  | some _ => .ok send

/-! ## Theorems for the claims -/

/-- C1 counterexample: a Gemini body whose only candidate part is
`" X "` parses to `" X "`, and an Anthropic body whose only text block is
`" X "` parses to `" X "`, while the claim requires the surrounding
whitespace to be removed (`"X"`), so the claim fails on two of the three
adapters. -/
theorem c1_counterexample :
    Gemini.parseResponse ⟨[⟨⟨[⟨" X "⟩]⟩⟩]⟩ = .ok " X " ∧
    Anthropic.parseResponse ⟨[⟨"text", " X "⟩]⟩ = .ok " X " ∧
    strTrim " X " = "X" ∧ (" X " : String) ≠ "X" :=
  ⟨rfl, rfl, by decide, by decide⟩

/-- C1 (amended): only the OpenAI adapter trims the generated content;
on a successfully parsed body with at least one choice it returns the
trimmed first choice (message content for `gpt-` models, text for legacy
models), while the Anthropic adapter returns the concatenation of the
`type == "text"` blocks verbatim and the Gemini adapter returns the text
of the first part of the first candidate verbatim. -/
theorem c1_trimming_per_adapter (model : String) (bo : OAResponseBody)
    (ba : AResponseBody) (bg : GResponseBody) :
    (∀ ch tail, bo.choices = ch :: tail → hasPrefixStr model "gpt-" = true →
        OpenAI.parseResponse bo model = .ok (strTrim ch.message.content)) ∧
    (∀ ch tail, bo.choices = ch :: tail → hasPrefixStr model "gpt-" = false →
        OpenAI.parseResponse bo model = .ok (strTrim ch.text)) ∧
    (anthropicTextConcat ba.content ≠ "" →
        Anthropic.parseResponse ba = .ok (anthropicTextConcat ba.content)) ∧
    (∀ c cs p ps, bg.candidates = c :: cs → c.content.parts = p :: ps →
        Gemini.parseResponse bg = .ok p.text) := by
  refine ⟨?_, ?_, ?_, ?_⟩
  · intro ch tail h hp
    simp [OpenAI.parseResponse, hp, h]
  · intro ch tail h hp
    simp [OpenAI.parseResponse, hp, h]
  · intro h
    simp only [Anthropic.parseResponse]
    rw [if_neg h]
  · intro c cs p ps h1 h2
    simp only [Gemini.parseResponse, h1, h2]

/-- C2: Validate performs the six checks in the spec's fixed order and
returns the error of the first failing check — its verdict coincides
with the spec-worded cascade `specValidationError` — and a Configuration
violating any of the conditions is rejected: success implies a non-empty
API key, a recognised provider, a model present in the capability table,
multimodal capability whenever an image or audio path is set, and a
temperature within [0, 1]. -/
theorem c2_validate_first_failure (c : Config) :
    (Config.Validate c).2 = specValidationError c ∧
    ((Config.Validate c).2 = none →
      c.apiKey ≠ "" ∧
      c.provider ∈ (["openai", "anthropic", "google"] : List String) ∧
      (modelCapabilities (effectiveModel c)).isSome = true ∧
      ((c.imagePath ≠ "" ∨ c.audioPath ≠ "") →
        ((modelCapabilities (effectiveModel c)).getD ⟨false, false⟩).multimodal = true) ∧
      0 ≤ c.temperature ∧ c.temperature ≤ 1) := by
  constructor
  · -- the verdict equals the spec-worded cascade
    by_cases h1 : c.apiKey = ""
    · simp [Config.Validate, specValidationError, h1]
    · by_cases h2 : c.provider = "openai" ∨ c.provider = "anthropic" ∨ c.provider = "google"
      · rcases hcap : modelCapabilities (effectiveModel c) with _ | caps <;>
          by_cases hm : c.model = "" <;>
          simp_all [Config.Validate, specValidationError, effectiveModel,
            Config.setModel, Config.setModelCaps] <;>
          split_ifs <;> simp_all
      · have hmem : c.provider ∉ (["openai", "anthropic", "google"] : List String) := by
          simpa using h2
        simp [Config.Validate, specValidationError, h1, h2, hmem]
  · -- success implies every condition holds
    intro hok
    by_cases h1 : c.apiKey = ""
    · simp [Config.Validate, h1] at hok
    · by_cases h2 : c.provider = "openai" ∨ c.provider = "anthropic" ∨ c.provider = "google"
      · have hmem : c.provider ∈ (["openai", "anthropic", "google"] : List String) := by
          simpa using h2
        rcases hcap : modelCapabilities (effectiveModel c) with _ | caps <;>
          by_cases hm : c.model = "" <;>
          simp_all [Config.Validate, effectiveModel, Config.setModel, Config.setModelCaps] <;>
          split_ifs at hok <;> simp_all
      · simp [Config.Validate, h1, h2] at hok

/-- A request whose model identifier is outside the capability table. -/
def reqClaudeV3 : Request := ⟨"", "hello", 1/2, "claude-v3", "", "", false⟩

/-- C3 counterexample: "claude-v3" is not in the capability table, yet
the Anthropic adapter's payload construction succeeds and passes the
identifier through into the payload, where the claim requires payload
construction to fail with an unsupported-model error. -/
theorem c3_counterexample :
    modelCapabilities "claude-v3" = none ∧
    Anthropic.prepareRequestPayload reqClaudeV3 false =
      ⟨"claude-v3", 1000, 1/2, false, [("user", "hello")], ""⟩ :=
  ⟨rfl, rfl⟩

/-- C3 (amended): Validate rejects every configuration whose effective
model is outside the capability table; the OpenAI adapter's payload
construction rejects every model outside its fixed OpenAI roster
(gpt-4o, the grouped chat cases, the grouped legacy cases) with
UnsupportedModel — also the Anthropic and Google models of the table —
and succeeds on every model of the roster (absent image/audio input);
but the Anthropic payload constructor performs no model check and
embeds the request's identifier unchanged in its payload, and the
Gemini adapter performs no model check either: its payload construction
succeeds for any identifier (absent image input) and the identifier is
spliced unchanged into the request URL. -/
theorem c3_model_allowlist (c : Config) (fs : FileSys) (req : Request) (st : Bool)
    (key : String) :
    (modelCapabilities (effectiveModel c) = none → (Config.Validate c).2 ≠ none) ∧
    (req.model ≠ "gpt-4o" → req.model ∉ openaiChatModels → req.model ∉ openaiLegacyModels →
      OpenAI.prepareRequestPayload fs req st = .error (.unsupportedModel req.model)) ∧
    (req.model = "gpt-4o" ∨ req.model ∈ openaiChatModels ∨ req.model ∈ openaiLegacyModels →
      req.imagePath = "" → req.audioPath = "" →
      ∃ p, OpenAI.prepareRequestPayload fs req st = .ok p) ∧
    (Anthropic.prepareRequestPayload req st).model = req.model ∧
    (req.imagePath = "" → ∃ p, Gemini.prepareRequestPayload fs req st = .ok p) ∧
    Gemini.completeEndpoint key req.model =
      "https://generativelanguage.googleapis.com/v1beta/models/" ++ req.model ++
        ":generateContent" ++ "?key=" ++ key := by
  refine ⟨?_, ?_, ?_, rfl, ?_, rfl⟩
  · intro h
    by_cases h1 : c.apiKey = ""
    · simp [Config.Validate, h1]
    · by_cases h2 : c.provider = "openai" ∨ c.provider = "anthropic" ∨ c.provider = "google"
      · by_cases hm : c.model = "" <;>
          simp_all [Config.Validate, effectiveModel, Config.setModel, Config.setModelCaps]
      · simp [Config.Validate, h1, h2]
  · intro h4o hch hlg
    simp [OpenAI.prepareRequestPayload, h4o, hch, hlg]
  · intro hmem h1 h2
    rcases hmem with h | h | h
    · simp [OpenAI.prepareRequestPayload, h, h1, h2]
    · have hne : req.model ≠ "gpt-4o" := by
        rintro he
        rw [he] at h
        exact absurd h (by decide)
      simp [OpenAI.prepareRequestPayload, hne, h]
    · have hne : req.model ≠ "gpt-4o" := by
        rintro he
        rw [he] at h
        exact absurd h (by decide)
      have hne2 : req.model ∉ openaiChatModels := by
        intro hmem2
        simp [openaiLegacyModels] at h
        rcases h with he | he | he | he | he <;> rw [he] at hmem2 <;> exact absurd hmem2 (by decide)
      simp [OpenAI.prepareRequestPayload, hne, hne2, h]
  · intro h
    simp [Gemini.prepareRequestPayload, h]

/-- C10: on any input, Validate leaves the API key, provider,
instruction, temperature, separator, image path, audio path, debug flag,
logger and remaining arguments unchanged; it never changes a non-empty
model; and on success the resulting model is the effective one (the
default substituted only for an empty model) and the resulting ModelCaps
is exactly that model's capability-table entry. -/
theorem c10_validate_frame (c : Config) :
    (Config.Validate c).1.apiKey = c.apiKey ∧
    (Config.Validate c).1.provider = c.provider ∧
    (Config.Validate c).1.instruction = c.instruction ∧
    (Config.Validate c).1.temperature = c.temperature ∧
    (Config.Validate c).1.separator = c.separator ∧
    (Config.Validate c).1.imagePath = c.imagePath ∧
    (Config.Validate c).1.audioPath = c.audioPath ∧
    (Config.Validate c).1.debug = c.debug ∧
    (Config.Validate c).1.logger = c.logger ∧
    (Config.Validate c).1.remainingArgs = c.remainingArgs ∧
    (c.model ≠ "" → (Config.Validate c).1.model = c.model) ∧
    ((Config.Validate c).2 = none →
      (Config.Validate c).1.model = effectiveModel c ∧
      modelCapabilities (effectiveModel c) = some (Config.Validate c).1.modelCaps) := by
  by_cases h1 : c.apiKey = ""
  · simp [Config.Validate, h1]
  · by_cases h2 : c.provider = "openai" ∨ c.provider = "anthropic" ∨ c.provider = "google"
    · rcases hcap : modelCapabilities (effectiveModel c) with _ | caps <;>
        by_cases hm : c.model = "" <;>
        simp_all [Config.Validate, effectiveModel, Config.setModel, Config.setModelCaps] <;>
        split_ifs <;> simp_all
    · simp [Config.Validate, h1, h2]

/-- If every block is either not a text block or has empty text, the
concatenation loop of the Anthropic parseResponse yields the empty
string. -/
lemma anthropicTextConcat_eq_empty (blocks : List ABlock)
    (h : ∀ b ∈ blocks, b.btype = "text" → b.text = "") :
    anthropicTextConcat blocks = "" := by
  induction blocks with
  | nil => rfl
  | cons b bs ih =>
    simp only [anthropicTextConcat]
    rw [ih fun x hx => h x (List.mem_cons_of_mem _ hx)]
    by_cases hb : b.btype = "text"
    · rw [if_pos hb, h b (List.mem_cons_self _ _) hb]
      rfl
    · rw [if_neg hb]
      rfl

/-- C4: an HTTP-200 body that decodes to zero choices (OpenAI, both the
chat and the legacy branch), to text blocks none of which is a non-empty
text block (Anthropic), or to zero candidates or zero parts (Gemini),
makes parseResponse — and hence Complete, which propagates its error and
constructs no Response — fail with ErrNoResponseGenerated. -/
theorem c4_no_response_generated (model : String) (bo : OAResponseBody)
    (ba : AResponseBody) (bg : GResponseBody)
    (ho : bo.choices = [])
    (ha : ∀ b ∈ ba.content, b.btype = "text" → b.text = "")
    (hg : bg.candidates = [] ∨ ∃ c cs, bg.candidates = c :: cs ∧ c.content.parts = []) :
    OpenAI.parseResponse bo model = .error .noResponseGenerated ∧
    Anthropic.parseResponse ba = .error .noResponseGenerated ∧
    Gemini.parseResponse bg = .error .noResponseGenerated := by
  refine ⟨?_, ?_, ?_⟩
  · by_cases hp : hasPrefixStr model "gpt-" = true <;> simp_all [OpenAI.parseResponse, ho]
  · simp only [Anthropic.parseResponse]
    rw [if_pos (anthropicTextConcat_eq_empty ba.content ha)]
  · rcases hg with h | ⟨c, cs, h1, h2⟩
    · simp [Gemini.parseResponse, h]
    · simp [Gemini.parseResponse, h1, h2]

/-- C4 witness: the theorem at concrete empty bodies (the Anthropic one
with an empty text block and a non-text block, neither a non-empty text
block). -/
theorem c4_witness :
    OpenAI.parseResponse ⟨[]⟩ "gpt-4" = .error .noResponseGenerated ∧
    Anthropic.parseResponse ⟨[⟨"text", ""⟩, ⟨"tool_use", "x"⟩]⟩ = .error .noResponseGenerated ∧
    Gemini.parseResponse ⟨[]⟩ = .error .noResponseGenerated :=
  c4_no_response_generated "gpt-4" ⟨[]⟩ ⟨[⟨"text", ""⟩, ⟨"tool_use", "x"⟩]⟩ ⟨[]⟩
    rfl (by decide) (Or.inl rfl)

/-- The SSE data payload carrying delta content "a" in the C5 scenario. -/
def sseChunkA : String := "\x7b\"choices\":[\x7b\"delta\":\x7b\"content\":\"a\"\x7d\x7d]\x7d"

/-- The SSE data payload carrying delta content "b" in the C5 scenario. -/
def sseChunkB : String := "\x7b\"choices\":[\x7b\"delta\":\x7b\"content\":\"b\"\x7d\x7d]\x7d"

/-- C5: on the three-event stream `data:` chunk a, `data:` chunk b,
`data: [DONE]`, the OpenAI stream loop writes exactly "a" then "b" then
the closing newline and succeeds; `dec` is json.Unmarshal, whose decoded
values on the two payloads are the stated hypotheses. -/
theorem c5_openai_stream_ab (dec : String → Option OAChunk)
    (ha : dec sseChunkA = some ⟨[⟨⟨"a"⟩, ""⟩]⟩)
    (hb : dec sseChunkB = some ⟨[⟨⟨"b"⟩, ""⟩]⟩) :
    OpenAI.streamRun (some ()) dec
      ["data: " ++ sseChunkA, "data: " ++ sseChunkB, "data: [DONE]"] = .ok "ab\n" := by
  have hstep2 : OpenAI.streamLoop (some ()) dec ["data: " ++ sseChunkB, "data: [DONE]"] = .ok "b" := by
    simp only [OpenAI.streamLoop, OpenAI.streamStep,
      show strTrim ("data: " ++ sseChunkB) = "data: " ++ sseChunkB from by decide,
      show splitN2 ("data: " ++ sseChunkB) ": " = some ("data", sseChunkB) from by decide, hb]
    rfl
  have hstep1 : OpenAI.streamLoop (some ()) dec
      ["data: " ++ sseChunkA, "data: " ++ sseChunkB, "data: [DONE]"] = .ok "ab" := by
    have e : OpenAI.streamLoop (some ()) dec
        (("data: " ++ sseChunkA) :: ["data: " ++ sseChunkB, "data: [DONE]"]) =
        OpenAI.streamStep (some ()) dec ("data: " ++ sseChunkA)
          (OpenAI.streamLoop (some ()) dec ["data: " ++ sseChunkB, "data: [DONE]"]) := rfl
    rw [e, hstep2]
    simp only [OpenAI.streamStep,
      show strTrim ("data: " ++ sseChunkA) = "data: " ++ sseChunkA from by decide,
      show splitN2 ("data: " ++ sseChunkA) ": " = some ("data", sseChunkA) from by decide, ha]
    rfl
  rw [OpenAI.streamRun, hstep1]
  rfl

/-- A concrete decoder behaving as json.Unmarshal does on the two C5
payloads. -/
def c5dec (s : String) : Option OAChunk :=
  if s = sseChunkA then some ⟨[⟨⟨"a"⟩, ""⟩]⟩
  else if s = sseChunkB then some ⟨[⟨⟨"b"⟩, ""⟩]⟩
  else none

/-- C5 witness: the theorem evaluated at the concrete decoder. -/
theorem c5_witness :
    OpenAI.streamRun (some ()) c5dec
      ["data: " ++ sseChunkA, "data: " ++ sseChunkB, "data: [DONE]"] = .ok "ab\n" :=
  c5_openai_stream_ab c5dec (by decide) (by decide)

/-- C6: the OpenAI stream loop stops on either trigger.  A line whose
trimmed form is `data: [DONE]` makes the loop return success at once,
and a data line decoding to a chunk whose first choice has a non-empty
finish_reason makes it return success with that chunk's content as the
last fragment; in both conclusions the result does not mention the
remaining lines `rest`, so no text from later events is written. -/
theorem c6_stream_termination (logger : Option Unit) (dec : String → Option OAChunk)
    (rest : List String) :
    (∀ line, strTrim line = "data: [DONE]" →
        OpenAI.streamLoop logger dec (line :: rest) = .ok "") ∧
    (∀ line d ch chs, strTrim line = line → line ≠ "" → hasPrefixStr line ":" = false →
        splitN2 line ": " = some ("data", d) → d ≠ "[DONE]" →
        dec d = some ⟨ch :: chs⟩ → ch.finishReason ≠ "" →
        OpenAI.streamLoop logger dec (line :: rest) =
          .ok (if ch.delta.content ≠ "" then ch.delta.content else "")) := by
  constructor
  · intro line h
    have e : OpenAI.streamLoop logger dec (line :: rest) =
        OpenAI.streamStep logger dec line (OpenAI.streamLoop logger dec rest) := rfl
    rw [e]
    simp only [OpenAI.streamStep, h]
    rfl
  · intro line d ch chs h1 hne hns hsp hd hdec hfin
    have e : OpenAI.streamLoop logger dec (line :: rest) =
        OpenAI.streamStep logger dec line (OpenAI.streamLoop logger dec rest) := rfl
    rw [e]
    simp [OpenAI.streamStep, h1, hne, hns, hsp, hd, hdec, hfin]

/-- C8: in all three adapters, a data line whose payload fails to decode
(`dec d = none`) is skipped when a logger is present: processing the
line followed by the remaining lines equals processing the remaining
lines alone, so the stream still terminates as the remaining lines
dictate and fragments from later well-formed events are still written;
the malformed event never becomes the overall result. -/
theorem c8_malformed_event_skipped (dec_o : String → Option OAChunk)
    (dec_a : String → Option AContentBlock) (dec_g : String → Option GResponseBody)
    (line d : String) (rest_o rest_a rest_g : List String)
    (ht : strTrim line = line) (hne : line ≠ "") (hnc : hasPrefixStr line ":" = false)
    (hsp : splitN2 line ": " = some ("data", d)) (hd : d ≠ "[DONE]")
    (hpd : hasPrefixStr line "data: " = true) (hpe : hasPrefixStr line "event: " = false)
    (hdrop : trimPrefixStr line "data: " = d)
    (ho : dec_o d = none) (ha : dec_a d = none) (hg : dec_g d = none) :
    OpenAI.streamLoop (some ()) dec_o (line :: rest_o) =
      OpenAI.streamLoop (some ()) dec_o rest_o ∧
    Anthropic.streamLoop (some ()) dec_a (line :: rest_a) =
      Anthropic.streamLoop (some ()) dec_a rest_a ∧
    Gemini.streamLoop (some ()) dec_g (line :: rest_g) =
      Gemini.streamLoop (some ()) dec_g rest_g := by
  refine ⟨?_, ?_, ?_⟩
  · have e : OpenAI.streamLoop (some ()) dec_o (line :: rest_o) =
        OpenAI.streamStep (some ()) dec_o line (OpenAI.streamLoop (some ()) dec_o rest_o) := rfl
    rw [e]
    simp [OpenAI.streamStep, ht, hne, hnc, hsp, hd, ho]
  · have e : Anthropic.streamLoop (some ()) dec_a (line :: rest_a) =
        Anthropic.streamStep (some ()) dec_a line (Anthropic.streamLoop (some ()) dec_a rest_a) := rfl
    rw [e]
    simp [Anthropic.streamStep, hpd, hpe, hdrop, hd, ha]
  · have e : Gemini.streamLoop (some ()) dec_g (line :: rest_g) =
        Gemini.streamStep (some ()) dec_g line (Gemini.streamLoop (some ()) dec_g rest_g) := rfl
    rw [e]
    simp [Gemini.streamStep, hpd, hdrop, hd, hg]

/-- C8 witness: the theorem at the line `data: oops` with decoders that
fail on `oops`, in front of a terminating `data: [DONE]` event. -/
theorem c8_witness :
    OpenAI.streamLoop (some ()) (fun _ => none) ("data: oops" :: ["data: [DONE]"]) =
      OpenAI.streamLoop (some ()) (fun _ => none) ["data: [DONE]"] ∧
    Anthropic.streamLoop (some ()) (fun _ => none) ("data: oops" :: ["data: [DONE]"]) =
      Anthropic.streamLoop (some ()) (fun _ => none) ["data: [DONE]"] ∧
    Gemini.streamLoop (some ()) (fun _ => none) ("data: oops" :: ["data: [DONE]"]) =
      Gemini.streamLoop (some ()) (fun _ => none) ["data: [DONE]"] :=
  c8_malformed_event_skipped (fun _ => none) (fun _ => none) (fun _ => none)
    "data: oops" "oops" ["data: [DONE]"] ["data: [DONE]"] ["data: [DONE]"]
    (by decide) (by decide) (by decide) (by decide) (by decide)
    (by decide) (by decide) (by decide) rfl rfl rfl

/-- A decoder on which every payload is malformed. -/
def c9dec : String → Option OAChunk := fun _ => none

/-- C9 (code bug in the source): with a nil logger the unguarded logger
method calls change control flow.  The OpenAI stream loop panics on a
malformed payload exactly where `p.logger.Warn` is called with a nil
`p.logger` (openai.go line 199), while the same input with a logger
succeeds; the Anthropic and Gemini loops panic likewise (anthropic.go
line 177, gemini.go line 181); and the transport wrapper's unguarded
`c.logger.Debug` (client.go line 36) panics on every call with a nil
logger, while with a logger it returns the transport outcome
unchanged. -/
theorem c9_nil_logger_changes_control_flow :
    OpenAI.streamRun none c9dec ["data: oops", "data: [DONE]"] = .error .nilLogger ∧
    OpenAI.streamRun (some ()) c9dec ["data: oops", "data: [DONE]"] = .ok "\n" ∧
    Anthropic.streamLoop none (fun _ => none) ["data: oops"] = .error .nilLogger ∧
    Gemini.streamLoop none (fun _ => none) ["data: oops"] = .error .nilLogger ∧
    Transport.Do none .success = .error .nilLogger ∧
    Transport.Do (some ()) .success = .ok .success :=
  ⟨rfl, rfl, rfl, rfl, rfl, rfl⟩

/-- Prefix tests compose: a string with prefix `p` also has any prefix
of `p`. -/
lemma hasPrefixStr_trans (s p q : String) (h1 : hasPrefixStr s p = true)
    (h2 : hasPrefixStr p q = true) : hasPrefixStr s q = true := by
  simp only [hasPrefixStr, List.isPrefixOf_iff_prefix] at h1 h2 ⊢
  exact h2.trans h1

/-- A png data URI never starts with "http". -/
lemma dataUri_not_http (s : String) :
    hasPrefixStr ("data:image/png;base64," ++ s) "http" = false := rfl

/-- Trimming a prefix off the very string it was prepended to recovers
the original. -/
lemma trimPrefixStr_append (p s : String) : trimPrefixStr (p ++ s) p = s := by
  have hp : hasPrefixStr (p ++ s) p = true := by
    simp only [hasPrefixStr, List.isPrefixOf_iff_prefix]
    exact ⟨s.data, rfl⟩
  simp only [trimPrefixStr, hp, if_pos, dropStr]
  show String.mk ((p.data ++ s.data).drop p.data.length) = s
  rw [List.drop_left]

/-- The file system of the image-encoding scenarios: one readable local
file `a.png` with bytes 1, 2, 3 (base64 "AQID"). -/
def fsDemo : FileSys := fun p => if p = "a.png" then some [1, 2, 3] else none

/-- A Gemini request with a local image file. -/
def reqGeminiImage : Request := ⟨"", "hi", 1/2, "gemini-medium", "a.png", "", false⟩

/-- C7 counterexample: for a local image file the Gemini payload does
not carry the file's contents as a base64 data URI: the loader produces
the data URI, but the payload strips the prefix and carries the bare
base64 "AQID" inside inline_data, which differs from the data URI. -/
theorem c7_counterexample :
    LoadImageAsBase64 fsDemo "a.png" = .ok "data:image/png;base64,AQID" ∧
    Gemini.prepareRequestPayload fsDemo reqGeminiImage false =
      .ok ⟨[⟨"user", [GemPart.text "hi", GemPart.inlineData "image/jpeg" "AQID"]⟩],
           none, 1/2⟩ ∧
    ("AQID" : String) ≠ "data:image/png;base64,AQID" :=
  ⟨rfl, rfl, by decide⟩

/-- C7 (amended): an http(s) image path is passed through unmodified by
the loader and lands unmodified in both image-capable payloads (OpenAI
gpt-4o as the image_url part, Gemini as the inline_data url field); a
readable local file is loaded as a png base64 data URI, which the OpenAI
payload carries verbatim while the Gemini payload carries the bare
base64 with the data-URI prefix stripped. -/
theorem c7_image_path_encoding (fs : FileSys) (reqU reqF : Request) (st : Bool)
    (bytes : List Nat)
    (hUm : reqU.model = "gpt-4o") (hUi : reqU.imagePath ≠ "") (hUa : reqU.audioPath = "")
    (hU : hasPrefixStr reqU.imagePath "http://" = true ∨
          hasPrefixStr reqU.imagePath "https://" = true)
    (hFm : reqF.model = "gpt-4o") (hFi : reqF.imagePath ≠ "") (hFa : reqF.audioPath = "")
    (hF1 : hasPrefixStr reqF.imagePath "http://" = false)
    (hF2 : hasPrefixStr reqF.imagePath "https://" = false)
    (hFr : fs reqF.imagePath = some bytes) :
    LoadImageAsBase64 fs reqU.imagePath = .ok reqU.imagePath ∧
    OpenAI.prepareRequestPayload fs reqU st = .ok
      ⟨reqU.model,
       .chat ((if reqU.instruction ≠ "" then [OAMessage.plain "system" reqU.instruction] else []) ++
         [OAMessage.parts "user" ((if reqU.input ≠ "" then [OAContentPart.text reqU.input] else []) ++
           [OAContentPart.imageUrl reqU.imagePath])]),
       reqU.temperature, st⟩ ∧
    Gemini.prepareRequestPayload fs reqU st = .ok
      ⟨[⟨"user", [GemPart.text reqU.input, GemPart.inlineDataUrl "image/jpeg" reqU.imagePath]⟩],
       (if reqU.instruction ≠ "" then some [GemPart.text reqU.instruction] else none),
       reqU.temperature⟩ ∧
    LoadImageAsBase64 fs reqF.imagePath = .ok ("data:image/png;base64," ++ base64Encode bytes) ∧
    OpenAI.prepareRequestPayload fs reqF st = .ok
      ⟨reqF.model,
       .chat ((if reqF.instruction ≠ "" then [OAMessage.plain "system" reqF.instruction] else []) ++
         [OAMessage.parts "user" ((if reqF.input ≠ "" then [OAContentPart.text reqF.input] else []) ++
           [OAContentPart.imageUrl ("data:image/png;base64," ++ base64Encode bytes)])]),
       reqF.temperature, st⟩ ∧
    Gemini.prepareRequestPayload fs reqF st = .ok
      ⟨[⟨"user", [GemPart.text reqF.input, GemPart.inlineData "image/jpeg" (base64Encode bytes)]⟩],
       (if reqF.instruction ≠ "" then some [GemPart.text reqF.instruction] else none),
       reqF.temperature⟩ := by
  have hUload : LoadImageAsBase64 fs reqU.imagePath = .ok reqU.imagePath := by
    rcases hU with h | h <;> simp [LoadImageAsBase64, h]
  have hUhttp : hasPrefixStr reqU.imagePath "http" = true := by
    rcases hU with h | h <;> exact hasPrefixStr_trans _ _ _ h (by decide)
  have hFload : LoadImageAsBase64 fs reqF.imagePath =
      .ok ("data:image/png;base64," ++ base64Encode bytes) := by
    simp [LoadImageAsBase64, hF1, hF2, hFr]
  refine ⟨hUload, ?_, ?_, hFload, ?_, ?_⟩
  · simp [OpenAI.prepareRequestPayload, hUm, hUi, hUa, hUload, Except.map]
  · simp [Gemini.prepareRequestPayload, hUi, hUload, hUhttp, Except.map]
  · simp [OpenAI.prepareRequestPayload, hFm, hFi, hFa, hFload, Except.map]
  · simp [Gemini.prepareRequestPayload, hFi, hFload, dataUri_not_http,
      trimPrefixStr_append, Except.map]

/-- A gpt-4o request with a remote image URL. -/
def reqUrlImage : Request := ⟨"", "hi", 1/2, "gpt-4o", "https://example.com/a.jpg", "", false⟩

/-- A gpt-4o request with a local image file. -/
def reqFileImage : Request := ⟨"", "hi", 1/2, "gpt-4o", "a.png", "", false⟩

/-- C7 witness: the theorem at the concrete one-file file system, a
remote URL request and a local file request. -/
theorem c7_witness :
    LoadImageAsBase64 fsDemo reqUrlImage.imagePath = .ok reqUrlImage.imagePath ∧
    OpenAI.prepareRequestPayload fsDemo reqUrlImage false = .ok
      ⟨reqUrlImage.model,
       .chat ((if reqUrlImage.instruction ≠ "" then [OAMessage.plain "system" reqUrlImage.instruction] else []) ++
         [OAMessage.parts "user" ((if reqUrlImage.input ≠ "" then [OAContentPart.text reqUrlImage.input] else []) ++
           [OAContentPart.imageUrl reqUrlImage.imagePath])]),
       reqUrlImage.temperature, false⟩ ∧
    Gemini.prepareRequestPayload fsDemo reqUrlImage false = .ok
      ⟨[⟨"user", [GemPart.text reqUrlImage.input, GemPart.inlineDataUrl "image/jpeg" reqUrlImage.imagePath]⟩],
       (if reqUrlImage.instruction ≠ "" then some [GemPart.text reqUrlImage.instruction] else none),
       reqUrlImage.temperature⟩ ∧
    LoadImageAsBase64 fsDemo reqFileImage.imagePath =
      .ok ("data:image/png;base64," ++ base64Encode [1, 2, 3]) ∧
    OpenAI.prepareRequestPayload fsDemo reqFileImage false = .ok
      ⟨reqFileImage.model,
       .chat ((if reqFileImage.instruction ≠ "" then [OAMessage.plain "system" reqFileImage.instruction] else []) ++
         [OAMessage.parts "user" ((if reqFileImage.input ≠ "" then [OAContentPart.text reqFileImage.input] else []) ++
           [OAContentPart.imageUrl ("data:image/png;base64," ++ base64Encode [1, 2, 3])])]),
       reqFileImage.temperature, false⟩ ∧
    Gemini.prepareRequestPayload fsDemo reqFileImage false = .ok
      ⟨[⟨"user", [GemPart.text reqFileImage.input, GemPart.inlineData "image/jpeg" (base64Encode [1, 2, 3])]⟩],
       (if reqFileImage.instruction ≠ "" then some [GemPart.text reqFileImage.instruction] else none),
       reqFileImage.temperature⟩ :=
  c7_image_path_encoding fsDemo reqUrlImage reqFileImage false [1, 2, 3]
    rfl (by decide) rfl (Or.inr (by decide)) rfl (by decide) rfl
    (by decide) (by decide) (by decide)

end Sgpt
